import Mathlib

/-!
Verification of the atmospheric-chemistry simulation core (atmos-script.js):
a shallow embedding of the kinetics engine (rate constants, RHS, RK4 stepper,
simulation clock/sampling) over the real numbers, together with theorems
settling the specification claims about it.
-/

namespace AtmosSim

/-- Gas constant `R = 8.314` J/(mol·K), as in the source. -/
def Rgas : ℝ := 8.314

/-- Avogadro's number, as in the source (`NA`). -/
def NA : ℝ := 6.022e23

/-- Concentration vector: one real entry (ppb) per each of the ten species,
in the declaration order of the source's `SPECIES` table. -/
@[ext] structure Conc where
  CH4 : ℝ
  CO : ℝ
  CO2 : ℝ
  OH : ℝ
  HO2 : ℝ
  O3 : ℝ
  NO : ℝ
  NO2 : ℝ
  CH3O2 : ℝ
  CH2O : ℝ

/-- Emission-rate pair (CH4, CO in ppb/day), as in `state.emissions`. -/
structure Emissions where
  CH4 : ℝ
  CO : ℝ

/-- The `background` preset of `initializeConcentrations`. -/
def backgroundConc : Conc :=
  { CH4 := 1800, CO := 100, CO2 := 400000, OH := 0.1, HO2 := 10,
    O3 := 40, NO := 0.5, NO2 := 0.5, CH3O2 := 0.01, CH2O := 1 }

/-- The `polluted` preset of `initializeConcentrations`. -/
def pollutedConc : Conc :=
  { CH4 := 2000, CO := 500, CO2 := 450000, OH := 0.05, HO2 := 20,
    O3 := 80, NO := 5, NO2 := 10, CH3O2 := 0.1, CH2O := 5 }

/-- The `clean` preset of `initializeConcentrations`. -/
def cleanConc : Conc :=
  { CH4 := 1750, CO := 50, CO2 := 400000, OH := 0.2, HO2 := 5,
    O3 := 30, NO := 0.1, NO2 := 0.1, CH3O2 := 0.005, CH2O := 0.5 }

/-- Preset lookup table of `initializeConcentrations`; unknown non-prototype
preset names fall back to `background` (`presets[preset] ||
presets.background`; for an `Object.prototype` member name the JS lookup
would instead find a truthy inherited value and leave every concentration
undefined — no caller and no theorem here exercises that branch, every use is
at the named presets). -/
def initializeConcentrations (preset : String) : Conc :=
  match preset with
  | "background" => backgroundConc
  | "polluted" => pollutedConc
  | "clean" => cleanConc
  | _ => backgroundConc

/-- Arrhenius equation `k = A * exp(-Ea/(R*T))` (`arrhenius` in the source). -/
noncomputable def arrhenius (A Ea T : ℝ) : ℝ :=
  A * Real.exp (-Ea / (Rgas * T))

/-- Photolysis parameter table of `calculateJValue`: `j0` and `n` per reaction. -/
def jValueParams (reaction : String) : Option (ℝ × ℝ) :=
  match reaction with
  | "NO2_photolysis" => some (8e-3, 1.0)
  | "O3_to_O1D" => some (3e-5, 1.5)
  | "CH2O_photolysis" => some (5e-5, 1.2)
  | _ => none

/-- Photolysis rate (`calculateJValue`): `J = j0 * max(0, cos(sza_rad))^n`,
with `sza` in degrees; unknown non-prototype reaction names give 0 (for an
`Object.prototype` member name the JS lookup would instead find a truthy
inherited value and compute NaN; no caller and no theorem here exercises that
branch — every use is at the three own keys). -/
noncomputable def calculateJValue (reaction : String) (sza : ℝ) : ℝ :=
  let szaRad := sza * Real.pi / 180
  let cosSza := max 0 (Real.cos szaRad)
  match jValueParams reaction with
  | none => 0
  | some params => params.1 * cosSza ^ params.2

/-- Rate-constant table (`getRateConstant`): one entry per each of the fifteen
own keys of the source's `rates` object; `M` is the air number density from
the ideal-gas law. The catch-all branch models `rates[reactionName] || 0` for
identifiers that are neither own keys nor `Object.prototype` member names; the
full JavaScript lookup, prototype chain included, is `getRateConstantJs`
below. -/
noncomputable def getRateConstant (reactionName : String) (T P sza : ℝ) : ℝ :=
  let kb : ℝ := 1.381e-23
  let M : ℝ := P * 100 / (kb * T) * 1e-6
  match reactionName with
  | "CH4_OH" => arrhenius 2.45e-12 (-1775) T
  | "CH3_O2" => 1e-12
  | "CH3O2_NO" => 2.8e-12
  | "CH2O_OH" => 5.5e-12
  | "CH2O_photolysis" => calculateJValue "CH2O_photolysis" sza
  | "CO_OH" => arrhenius 1.5e-13 0 T * (1 + 0.6 * P / 1013)
  | "NO_O3" => arrhenius 3.0e-12 1500 T
  | "NO2_photolysis" => calculateJValue "NO2_photolysis" sza
  | "NO2_OH" => arrhenius 1.2e-11 0 T
  | "HO2_NO" => arrhenius 3.5e-12 (-250) T
  | "O_O2_M" => 6e-34 * (T / 300) ^ (-2.4 : ℝ) * M
  | "O3_photolysis" => calculateJValue "O3_to_O1D" sza
  | "O1D_H2O" => 1.63e-10
  | "OH_HO2" => 4.8e-11
  | "HO2_HO2" => 2.3e-13
  | _ => 0

/-- Own (literal) keys of the source's `rates` object, in declaration
order. -/
def ratesOwnKeys : List String :=
  ["CH4_OH", "CH3_O2", "CH3O2_NO", "CH2O_OH", "CH2O_photolysis", "CO_OH",
   "NO_O3", "NO2_photolysis", "NO2_OH", "HO2_NO", "O_O2_M", "O3_photolysis",
   "O1D_H2O", "OH_HO2", "HO2_HO2"]

/-- Property names every plain JavaScript object literal inherits from
`Object.prototype`; looking any of them up on the `rates` object yields a
truthy function value rather than `undefined`, which `|| 0` then passes
through unchanged. -/
def objectPrototypeMembers : List String :=
  ["constructor", "hasOwnProperty", "isPrototypeOf", "propertyIsEnumerable",
   "toLocaleString", "toString", "valueOf", "__proto__", "__defineGetter__",
   "__defineSetter__", "__lookupGetter__", "__lookupSetter__"]

/-- Result of the JavaScript expression `rates[reactionName] || 0`: either a
numeric rate constant, or a truthy function value inherited from
`Object.prototype`. -/
inductive RateLookup where
  | value : ℝ → RateLookup
  | inherited : String → RateLookup

/-- Faithful model of the full lookup `return rates[reactionName] || 0` in
`getRateConstant`, JavaScript prototype-chain semantics included: an own key
yields its numeric table entry (falsy 0 is mapped to 0 by `||`, which is the
same real number), any `Object.prototype` member name yields the truthy
inherited function, and any other identifier yields `undefined`, which
`|| 0` turns into 0. -/
noncomputable def getRateConstantJs (reactionName : String) (T P sza : ℝ) :
    RateLookup :=
  if reactionName ∈ ratesOwnKeys then
    RateLookup.value (getRateConstant reactionName T P sza)
  else if reactionName ∈ objectPrototypeMembers then
    RateLookup.inherited reactionName
  else
    RateLookup.value 0

/-- Kinetics RHS (`calculateRates`): the instantaneous derivative (ppb/s) of
every species, each the signed sum of its reaction terms, with rate constants
looked up from `getRateConstant` at `(T, P, sza)`. -/
noncomputable def calculateRates (c : Conc) (T P sza : ℝ) : Conc :=
  let k_CH4_OH := getRateConstant "CH4_OH" T P sza
  let k_CH3O2_NO := getRateConstant "CH3O2_NO" T P sza
  let k_CH2O_OH := getRateConstant "CH2O_OH" T P sza
  let k_CH2O_photolysis := getRateConstant "CH2O_photolysis" T P sza
  let k_CO_OH := getRateConstant "CO_OH" T P sza
  let k_NO_O3 := getRateConstant "NO_O3" T P sza
  let k_NO2_photolysis := getRateConstant "NO2_photolysis" T P sza
  let k_NO2_OH := getRateConstant "NO2_OH" T P sza
  let k_HO2_NO := getRateConstant "HO2_NO" T P sza
  let k_O3_photolysis := getRateConstant "O3_photolysis" T P sza
  let k_OH_HO2 := getRateConstant "OH_HO2" T P sza
  let k_HO2_HO2 := getRateConstant "HO2_HO2" T P sza
  { CH4 := -k_CH4_OH * c.CH4 * c.OH
    CH3O2 := k_CH4_OH * c.CH4 * c.OH - k_CH3O2_NO * c.CH3O2 * c.NO
    CH2O := k_CH3O2_NO * c.CH3O2 * c.NO
            - k_CH2O_OH * c.CH2O * c.OH
            - k_CH2O_photolysis * c.CH2O
    CO := k_CH2O_OH * c.CH2O * c.OH
          + k_CH2O_photolysis * c.CH2O
          - k_CO_OH * c.CO * c.OH
    CO2 := k_CO_OH * c.CO * c.OH
    OH := 2 * k_O3_photolysis * c.O3 * 0.2
          + k_HO2_NO * c.HO2 * c.NO
          - k_CH4_OH * c.CH4 * c.OH
          - k_CH2O_OH * c.CH2O * c.OH
          - k_CO_OH * c.CO * c.OH
          - k_NO2_OH * c.NO2 * c.OH
          - k_OH_HO2 * c.OH * c.HO2
    HO2 := k_CH3O2_NO * c.CH3O2 * c.NO
           + k_CH2O_OH * c.CH2O * c.OH
           - k_HO2_NO * c.HO2 * c.NO
           - k_OH_HO2 * c.OH * c.HO2
           - k_HO2_HO2 * c.HO2 * c.HO2
    NO := k_NO2_photolysis * c.NO2
          - k_NO_O3 * c.NO * c.O3
          - k_CH3O2_NO * c.CH3O2 * c.NO
          - k_HO2_NO * c.HO2 * c.NO
    NO2 := k_NO_O3 * c.NO * c.O3
           + k_CH3O2_NO * c.CH3O2 * c.NO
           + k_HO2_NO * c.HO2 * c.NO
           - k_NO2_photolysis * c.NO2
           - k_NO2_OH * c.NO2 * c.OH
    O3 := k_NO2_photolysis * c.NO2
          - k_NO_O3 * c.NO * c.O3
          - k_O3_photolysis * c.O3 }

/-- Emission source term of `rk4Step`'s inner `addEmissions` helper:
`emissions/86400` (ppb/day to ppb/s) added to the CH4 and CO derivatives only.
(The JS helper's unused `dt` parameter is dropped.) -/
noncomputable def addEmissions (emissions : Emissions) (dcdt : Conc) : Conc :=
  { dcdt with
    CH4 := dcdt.CH4 + emissions.CH4 / 86400
    CO := dcdt.CO + emissions.CO / 86400 }

/-- Intermediate-stage vector of `rk4Step`: element-wise
`max(0, c[sp] + h * k[sp])` (the source uses `h = 0.5*dt` or `h = dt`). -/
noncomputable def stageClamp (c : Conc) (h : ℝ) (k : Conc) : Conc :=
  { CH4 := max 0 (c.CH4 + h * k.CH4)
    CO := max 0 (c.CO + h * k.CO)
    CO2 := max 0 (c.CO2 + h * k.CO2)
    OH := max 0 (c.OH + h * k.OH)
    HO2 := max 0 (c.HO2 + h * k.HO2)
    O3 := max 0 (c.O3 + h * k.O3)
    NO := max 0 (c.NO + h * k.NO)
    NO2 := max 0 (c.NO2 + h * k.NO2)
    CH3O2 := max 0 (c.CH3O2 + h * k.CH3O2)
    CH2O := max 0 (c.CH2O + h * k.CH2O) }

/-- Final update of `rk4Step`: element-wise
`max(0, c[sp] + dt/6 * (k1[sp] + 2*k2[sp] + 2*k3[sp] + k4[sp]))`. -/
noncomputable def finalUpdate (c : Conc) (dt : ℝ) (k1 k2 k3 k4 : Conc) : Conc :=
  { CH4 := max 0 (c.CH4 + dt / 6 * (k1.CH4 + 2 * k2.CH4 + 2 * k3.CH4 + k4.CH4))
    CO := max 0 (c.CO + dt / 6 * (k1.CO + 2 * k2.CO + 2 * k3.CO + k4.CO))
    CO2 := max 0 (c.CO2 + dt / 6 * (k1.CO2 + 2 * k2.CO2 + 2 * k3.CO2 + k4.CO2))
    OH := max 0 (c.OH + dt / 6 * (k1.OH + 2 * k2.OH + 2 * k3.OH + k4.OH))
    HO2 := max 0 (c.HO2 + dt / 6 * (k1.HO2 + 2 * k2.HO2 + 2 * k3.HO2 + k4.HO2))
    O3 := max 0 (c.O3 + dt / 6 * (k1.O3 + 2 * k2.O3 + 2 * k3.O3 + k4.O3))
    NO := max 0 (c.NO + dt / 6 * (k1.NO + 2 * k2.NO + 2 * k3.NO + k4.NO))
    NO2 := max 0 (c.NO2 + dt / 6 * (k1.NO2 + 2 * k2.NO2 + 2 * k3.NO2 + k4.NO2))
    CH3O2 := max 0 (c.CH3O2 + dt / 6 * (k1.CH3O2 + 2 * k2.CH3O2 + 2 * k3.CH3O2 + k4.CH3O2))
    CH2O := max 0 (c.CH2O + dt / 6 * (k1.CH2O + 2 * k2.CH2O + 2 * k3.CH2O + k4.CH2O)) }

/-- One RK4 step (`rk4Step`): four staged RHS evaluations with emissions added
to each stage, positivity clamping of every intermediate stage and of the
final result. -/
noncomputable def rk4Step (c : Conc) (dt T P sza : ℝ) (emissions : Emissions) : Conc :=
  let k1 := addEmissions emissions (calculateRates c T P sza)
  let c2 := stageClamp c (0.5 * dt) k1
  let k2 := addEmissions emissions (calculateRates c2 T P sza)
  let c3 := stageClamp c (0.5 * dt) k2
  let k3 := addEmissions emissions (calculateRates c3 T P sza)
  let c4 := stageClamp c dt k3
  let k4 := addEmissions emissions (calculateRates c4 T P sza)
  finalUpdate c dt k1 k2 k3 k4

/-! Evaluation lemmas: the rate-constant table at each named reaction. -/

/-- Element-wise sum of two concentration vectors (spec-side vocabulary). -/
def Conc.add (a b : Conc) : Conc :=
  ⟨a.CH4 + b.CH4, a.CO + b.CO, a.CO2 + b.CO2, a.OH + b.OH, a.HO2 + b.HO2,
   a.O3 + b.O3, a.NO + b.NO, a.NO2 + b.NO2, a.CH3O2 + b.CH3O2, a.CH2O + b.CH2O⟩

/-- Element-wise scalar multiple of a concentration vector (spec-side). -/
def Conc.smul (r : ℝ) (a : Conc) : Conc :=
  ⟨r * a.CH4, r * a.CO, r * a.CO2, r * a.OH, r * a.HO2,
   r * a.O3, r * a.NO, r * a.NO2, r * a.CH3O2, r * a.CH2O⟩

/-- Spec-side clamp: element-wise `max(0, .)`. -/
noncomputable def specClamp (a : Conc) : Conc :=
  ⟨max 0 a.CH4, max 0 a.CO, max 0 a.CO2, max 0 a.OH, max 0 a.HO2,
   max 0 a.O3, max 0 a.NO, max 0 a.NO2, max 0 a.CH3O2, max 0 a.CH2O⟩

/-- Spec-side emission term: `emissions/86400` on CH4 and CO, zero elsewhere. -/
noncomputable def specEmissionTerm (e : Emissions) : Conc :=
  ⟨e.CH4 / 86400, e.CO / 86400, 0, 0, 0, 0, 0, 0, 0, 0⟩

/-- The RK4 step exactly as the specification states it. -/
noncomputable def specStepOne (c : Conc) (dt T P sza : ℝ) (e : Emissions) : Conc :=
  let em := specEmissionTerm e
  let k1 := (calculateRates c T P sza).add em
  let k2 := (calculateRates (specClamp (c.add (Conc.smul (dt / 2) k1))) T P sza).add em
  let k3 := (calculateRates (specClamp (c.add (Conc.smul (dt / 2) k2))) T P sza).add em
  let k4 := (calculateRates (specClamp (c.add (Conc.smul dt k3))) T P sza).add em
  specClamp (c.add (Conc.smul (dt / 6)
    (k1.add ((Conc.smul 2 k2).add ((Conc.smul 2 k3).add k4)))))

/-- Truncation toward zero, as JavaScript's `%` operator uses for its
implicit quotient. -/
noncomputable def jsTrunc (x : ℝ) : ℝ :=
  if x < 0 then -(Int.floor (-x) : ℝ) else (Int.floor x : ℝ)

/-- JavaScript's remainder operator `a % b` on finite reals:
`a - b * trunc(a / b)`. -/
noncomputable def jsMod (a b : ℝ) : ℝ := a - b * jsTrunc (a / b)

/-- Simulation state: the mutable globals `state` (concentrations, clock,
environment parameters) together with the time-series buffer
`timeSeriesData` (sample times and, in parallel, sampled vectors). -/
structure SimState where
  concentrations : Conc
  time : ℝ
  temperature : ℝ
  pressure : ℝ
  solarZenithAngle : ℝ
  isRunning : Bool
  diurnalCycle : Bool
  emissions : Emissions
  tsTimes : List ℝ
  tsConcs : List Conc

/-- Diurnal solar-zenith-angle model (`updateDiurnalCycle`): when the diurnal
toggle is on, `sza = min(90, |12 - hours| * 7.5)` with
`hours = (time/3600) % 24`; otherwise the state is unchanged. -/
noncomputable def updateDiurnalCycle (s : SimState) : SimState :=
  if s.diurnalCycle then
    let hours := jsMod (s.time / 3600) 24
    let sza := |12 - hours| * 7.5
    { s with solarZenithAngle := min 90 sza }
  else s

/-- One simulation step (`stepSimulation`): advance the concentrations by
`rk4Step`, advance simulated time by `dt`, update the diurnal cycle, and
append a sample exactly when the buffer is empty or at least `dt*10`
simulated seconds have passed since the last recorded sample. -/
noncomputable def stepSimulation (dt : ℝ) (s : SimState) : SimState :=
  let c' := rk4Step s.concentrations dt s.temperature s.pressure
      s.solarZenithAngle s.emissions
  let s1 := updateDiurnalCycle { s with concentrations := c', time := s.time + dt }
  if s1.tsTimes.length = 0 ∨ dt * 10 ≤ s1.time - s1.tsTimes.getLastD 0 then
    { s1 with tsTimes := s1.tsTimes ++ [s1.time],
              tsConcs := s1.tsConcs ++ [s1.concentrations] }
  else s1

/-- Pause (`pauseSimulation`): clears the running flag. (The animation-frame
cancellation is host-environment bookkeeping with no core-state effect.) -/
def pauseSimulation (s : SimState) : SimState := { s with isRunning := false }

/-- Reset (`resetSimulation`): pause, zero simulated time and solar zenith
angle, clear the time-series buffer, and reload the `background` preset. -/
noncomputable def resetSimulation (s : SimState) : SimState :=
  let s1 := pauseSimulation s
  { s1 with
    time := 0
    solarZenithAngle := 0
    tsTimes := []
    tsConcs := []
    concentrations := initializeConcentrations "background" }

/-- Enclosing box for every RK4 stage vector reachable within one step of
length at most 60 s from the `background` preset. -/
def inBox (c : Conc) : Prop :=
  1700 ≤ c.CH4 ∧ c.CH4 ≤ 1800 ∧
  99 ≤ c.CO ∧ c.CO ≤ 101 ∧
  0.05 ≤ c.OH ∧ c.OH ≤ 0.2 ∧
  9 ≤ c.HO2 ∧ c.HO2 ≤ 11 ∧
  39 ≤ c.O3 ∧ c.O3 ≤ 41 ∧
  0 ≤ c.NO ∧ c.NO ≤ 1 ∧
  0 ≤ c.NO2 ∧ c.NO2 ≤ 1 ∧
  0 ≤ c.CH3O2 ∧ c.CH3O2 ≤ 0.1 ∧
  0.9 ≤ c.CH2O ∧ c.CH2O ≤ 2

/-- Sampling-gap invariant: adjacent recorded sample times differ by at
least `dt * 10`. -/
def sampleGapOK (dt : ℝ) (l : List ℝ) : Prop :=
  l.Chain' (fun a b => dt * 10 ≤ b - a)


lemma grc_CH4_OH (T P sza : ℝ) :
    getRateConstant "CH4_OH" T P sza = arrhenius 2.45e-12 (-1775) T := rfl

lemma grc_CH3O2_NO (T P sza : ℝ) :
    getRateConstant "CH3O2_NO" T P sza = 2.8e-12 := rfl

lemma grc_CH2O_OH (T P sza : ℝ) :
    getRateConstant "CH2O_OH" T P sza = 5.5e-12 := rfl

lemma grc_CH2O_photolysis (T P sza : ℝ) :
    getRateConstant "CH2O_photolysis" T P sza = calculateJValue "CH2O_photolysis" sza := rfl

lemma grc_CO_OH (T P sza : ℝ) :
    getRateConstant "CO_OH" T P sza = arrhenius 1.5e-13 0 T * (1 + 0.6 * P / 1013) := rfl

lemma grc_NO_O3 (T P sza : ℝ) :
    getRateConstant "NO_O3" T P sza = arrhenius 3.0e-12 1500 T := rfl

lemma grc_NO2_photolysis (T P sza : ℝ) :
    getRateConstant "NO2_photolysis" T P sza = calculateJValue "NO2_photolysis" sza := rfl

lemma grc_NO2_OH (T P sza : ℝ) :
    getRateConstant "NO2_OH" T P sza = arrhenius 1.2e-11 0 T := rfl

lemma grc_HO2_NO (T P sza : ℝ) :
    getRateConstant "HO2_NO" T P sza = arrhenius 3.5e-12 (-250) T := rfl

lemma grc_O3_photolysis (T P sza : ℝ) :
    getRateConstant "O3_photolysis" T P sza = calculateJValue "O3_to_O1D" sza := rfl

lemma grc_OH_HO2 (T P sza : ℝ) :
    getRateConstant "OH_HO2" T P sza = 4.8e-11 := rfl

lemma grc_HO2_HO2 (T P sza : ℝ) :
    getRateConstant "HO2_HO2" T P sza = 2.3e-13 := rfl

/-! Numeric bounds on the temperature-dependent rate constants at
`T = 298`, `P = 1000`, used by the interval analysis of the RK4 stages. -/

lemma kCH4OH_bounds :
    4.2e-12 ≤ arrhenius 2.45e-12 (-1775) 298 ∧
    arrhenius 2.45e-12 (-1775) 298 ≤ 6.67e-12 := by
  unfold arrhenius Rgas
  have hx : -(-1775 : ℝ) / (8.314 * 298) = 1775 / 2477.572 := by norm_num
  rw [hx]
  constructor
  · have h := Real.add_one_le_exp ((1775 : ℝ) / 2477.572)
    linarith
  · have h1 : Real.exp ((1775 : ℝ) / 2477.572) ≤ Real.exp 1 :=
      Real.exp_le_exp.mpr (by norm_num)
    have h2 := Real.exp_one_lt_d9
    linarith

lemma kHO2NO_bounds :
    3.5e-12 ≤ arrhenius 3.5e-12 (-250) 298 ∧
    arrhenius 3.5e-12 (-250) 298 ≤ 9.52e-12 := by
  unfold arrhenius Rgas
  have hx : -(-250 : ℝ) / (8.314 * 298) = 250 / 2477.572 := by norm_num
  rw [hx]
  constructor
  · have h := Real.add_one_le_exp ((250 : ℝ) / 2477.572)
    linarith
  · have h1 : Real.exp ((250 : ℝ) / 2477.572) ≤ Real.exp 1 :=
      Real.exp_le_exp.mpr (by norm_num)
    have h2 := Real.exp_one_lt_d9
    linarith

lemma kNOO3_bounds :
    0 ≤ arrhenius 3.0e-12 1500 298 ∧ arrhenius 3.0e-12 1500 298 ≤ 3e-12 := by
  unfold arrhenius Rgas
  constructor
  · positivity
  · have h1 : Real.exp (-(1500 : ℝ) / (8.314 * 298)) ≤ Real.exp 0 :=
      Real.exp_le_exp.mpr (by norm_num)
    rw [Real.exp_zero] at h1
    linarith

lemma kCOOH_1000_bounds :
    2.3e-13 ≤ arrhenius 1.5e-13 0 298 * (1 + 0.6 * 1000 / 1013) ∧
    arrhenius 1.5e-13 0 298 * (1 + 0.6 * 1000 / 1013) ≤ 2.4e-13 := by
  unfold arrhenius Rgas
  have hx : -(0 : ℝ) / (8.314 * 298) = 0 := by norm_num
  rw [hx, Real.exp_zero]
  norm_num

lemma kNO2OH_value : arrhenius 1.2e-11 0 298 = 1.2e-11 := by
  unfold arrhenius Rgas
  have hx : -(0 : ℝ) / (8.314 * 298) = 0 := by norm_num
  rw [hx, Real.exp_zero]
  norm_num

/-! Bounds on photolysis rates: for any solar zenith angle, each J-value lies
between 0 and its `j0`. -/

lemma calculateJValue_NO2_eq (sza : ℝ) : calculateJValue "NO2_photolysis" sza
    = 8e-3 * (max 0 (Real.cos (sza * Real.pi / 180))) ^ (1.0 : ℝ) := rfl

lemma calculateJValue_O3_eq (sza : ℝ) : calculateJValue "O3_to_O1D" sza
    = 3e-5 * (max 0 (Real.cos (sza * Real.pi / 180))) ^ (1.5 : ℝ) := rfl

lemma calculateJValue_CH2O_eq (sza : ℝ) : calculateJValue "CH2O_photolysis" sza
    = 5e-5 * (max 0 (Real.cos (sza * Real.pi / 180))) ^ (1.2 : ℝ) := rfl

lemma jform_bounds (j0 n sza : ℝ) (hj : 0 ≤ j0) (hn : 0 ≤ n) :
    0 ≤ j0 * (max 0 (Real.cos (sza * Real.pi / 180))) ^ n ∧
    j0 * (max 0 (Real.cos (sza * Real.pi / 180))) ^ n ≤ j0 := by
  have hb0 : (0 : ℝ) ≤ max 0 (Real.cos (sza * Real.pi / 180)) := le_max_left 0 _
  have hb1 : max 0 (Real.cos (sza * Real.pi / 180)) ≤ 1 :=
    max_le (by norm_num) (Real.cos_le_one _)
  refine ⟨mul_nonneg hj (Real.rpow_nonneg hb0 n), ?_⟩
  have h1 := Real.rpow_le_one hb0 hb1 hn
  nlinarith [Real.rpow_nonneg hb0 n]

lemma jNO2_bounds (sza : ℝ) :
    0 ≤ calculateJValue "NO2_photolysis" sza ∧
    calculateJValue "NO2_photolysis" sza ≤ 8e-3 := by
  rw [calculateJValue_NO2_eq]
  exact jform_bounds 8e-3 1.0 sza (by norm_num) (by norm_num)

lemma jO3_bounds (sza : ℝ) :
    0 ≤ calculateJValue "O3_to_O1D" sza ∧
    calculateJValue "O3_to_O1D" sza ≤ 3e-5 := by
  rw [calculateJValue_O3_eq]
  exact jform_bounds 3e-5 1.5 sza (by norm_num) (by norm_num)

lemma jCH2O_bounds (sza : ℝ) :
    0 ≤ calculateJValue "CH2O_photolysis" sza ∧
    calculateJValue "CH2O_photolysis" sza ≤ 5e-5 := by
  rw [calculateJValue_CH2O_eq]
  exact jform_bounds 5e-5 1.2 sza (by norm_num) (by norm_num)

/-! Interval analysis of the RK4 stages started from the `background` preset

at `T = 298`, `P = 1000`, arbitrary solar zenith angle, step `0 ≤ h ≤ 60`. -/

lemma prod3_le {a1 a2 a3 b1 b2 b3 : ℝ} (h1 : 0 ≤ a1) (h2 : 0 ≤ a2) (h3 : 0 ≤ a3)
    (g1 : a1 ≤ b1) (g2 : a2 ≤ b2) (g3 : a3 ≤ b3) :
    a1 * a2 * a3 ≤ b1 * b2 * b3 := by
  have h12 : a1 * a2 ≤ b1 * b2 := mul_le_mul g1 g2 h2 (h1.trans g1)
  exact mul_le_mul h12 g3 h3 (mul_nonneg (h1.trans g1) (h2.trans g2))

lemma prod2_le {a1 a2 b1 b2 : ℝ} (h1 : 0 ≤ a1) (h2 : 0 ≤ a2)
    (g1 : a1 ≤ b1) (g2 : a2 ≤ b2) : a1 * a2 ≤ b1 * b2 :=
  mul_le_mul g1 g2 h2 (h1.trans g1)

lemma backgroundConc_inBox : inBox backgroundConc := by
  unfold inBox backgroundConc
  norm_num


set_option maxHeartbeats 2000000 in
/-- Bounds on every species derivative computed by `calculateRates` at
`T = 298`, `P = 1000`, for any sza, over the box. -/
lemma rates_bounds (sza : ℝ) (c : Conc) (hc : inBox c) :
    (-2.5e-9 ≤ (calculateRates c 298 1000 sza).CH4 ∧
      (calculateRates c 298 1000 sza).CH4 ≤ 0) ∧
    (3.4e-10 ≤ (calculateRates c 298 1000 sza).CH3O2 ∧
      (calculateRates c 298 1000 sza).CH3O2 ≤ 2.5e-9) ∧
    (-1.2e-4 ≤ (calculateRates c 298 1000 sza).CH2O ∧
      (calculateRates c 298 1000 sza).CH2O ≤ 3e-13) ∧
    (-5e-12 ≤ (calculateRates c 298 1000 sza).CO ∧
      (calculateRates c 298 1000 sza).CO ≤ 1.2e-4) ∧
    (0 ≤ (calculateRates c 298 1000 sza).CO2 ∧
      (calculateRates c 298 1000 sza).CO2 ≤ 5e-12) ∧
    (-2.7e-9 ≤ (calculateRates c 298 1000 sza).OH ∧
      (calculateRates c 298 1000 sza).OH ≤ 5e-4) ∧
    (-2.5e-10 ≤ (calculateRates c 298 1000 sza).HO2 ∧
      (calculateRates c 298 1000 sza).HO2 ≤ 3e-12) ∧
    (-2.4e-10 ≤ (calculateRates c 298 1000 sza).NO ∧
      (calculateRates c 298 1000 sza).NO ≤ 8e-3) ∧
    (-8.1e-3 ≤ (calculateRates c 298 1000 sza).NO2 ∧
      (calculateRates c 298 1000 sza).NO2 ≤ 2.4e-10) ∧
    (-1.3e-3 ≤ (calculateRates c 298 1000 sza).O3 ∧
      (calculateRates c 298 1000 sza).O3 ≤ 8e-3) := by
  obtain ⟨hCH4l, hCH4u, hCOl, hCOu, hOHl, hOHu, hHO2l, hHO2u, hO3l, hO3u,
    hNOl, hNOu, hNO2l, hNO2u, hMOl, hMOu, hFl, hFu⟩ := hc
  obtain ⟨hκl, hκu⟩ := kCH4OH_bounds
  obtain ⟨hhl, hhu⟩ := kHO2NO_bounds
  obtain ⟨hnl, hnu⟩ := kNOO3_bounds
  obtain ⟨hcol, hcou⟩ := kCOOH_1000_bounds
  obtain ⟨hj1l, hj1u⟩ := jNO2_bounds sza
  obtain ⟨hj2l, hj2u⟩ := jO3_bounds sza
  obtain ⟨hj3l, hj3u⟩ := jCH2O_bounds sza
  simp only [calculateRates, grc_CH4_OH, grc_CH3O2_NO, grc_CH2O_OH,
    grc_CH2O_photolysis, grc_CO_OH, grc_NO_O3, grc_NO2_photolysis, grc_NO2_OH,
    grc_HO2_NO, grc_O3_photolysis, grc_OH_HO2, grc_HO2_HO2, kNO2OH_value]
  set kA := arrhenius 2.45e-12 (-1775) 298 with hkA
  set kH := arrhenius 3.5e-12 (-250) 298 with hkH
  set kN := arrhenius 3.0e-12 1500 298 with hkN
  set kC := arrhenius 1.5e-13 0 298 * (1 + 0.6 * 1000 / 1013) with hkC
  set j1 := calculateJValue "NO2_photolysis" sza with hj1
  set j2 := calculateJValue "O3_to_O1D" sza with hj2
  set j3 := calculateJValue "CH2O_photolysis" sza with hj3
  have hκ0 : (0 : ℝ) ≤ kA := le_trans (by norm_num) hκl
  have hh0 : (0 : ℝ) ≤ kH := le_trans (by norm_num) hhl
  have hco0 : (0 : ℝ) ≤ kC := le_trans (by norm_num) hcol
  have P1u : kA * c.CH4 * c.OH ≤ 6.67e-12 * 1800 * 0.2 :=
    prod3_le hκ0 (by linarith) (by linarith) hκu hCH4u hOHu
  have P1l : 4.2e-12 * 1700 * 0.05 ≤ kA * c.CH4 * c.OH :=
    prod3_le (by norm_num) (by norm_num) (by norm_num) hκl hCH4l hOHl
  have P2u : 2.8e-12 * c.CH3O2 * c.NO ≤ 2.8e-12 * 0.1 * 1 :=
    prod3_le (by norm_num) hMOl hNOl (le_refl _) hMOu hNOu
  have P2l : 0 ≤ 2.8e-12 * c.CH3O2 * c.NO :=
    mul_nonneg (mul_nonneg (by norm_num) hMOl) hNOl
  have P3u : 5.5e-12 * c.CH2O * c.OH ≤ 5.5e-12 * 2 * 0.2 :=
    prod3_le (by norm_num) (by linarith) (by linarith) (le_refl _) hFu hOHu
  have P3l : 0 ≤ 5.5e-12 * c.CH2O * c.OH :=
    mul_nonneg (mul_nonneg (by norm_num) (by linarith)) (by linarith)
  have P4u : j3 * c.CH2O ≤ 5e-5 * 2 := prod2_le hj3l (by linarith) hj3u hFu
  have P4l : 0 ≤ j3 * c.CH2O := mul_nonneg hj3l (by linarith)
  have P5u : kC * c.CO * c.OH ≤ 2.4e-13 * 101 * 0.2 :=
    prod3_le hco0 (by linarith) (by linarith) hcou hCOu hOHu
  have P5l : 0 ≤ kC * c.CO * c.OH :=
    mul_nonneg (mul_nonneg hco0 (by linarith)) (by linarith)
  have P7u : kH * c.HO2 * c.NO ≤ 9.52e-12 * 11 * 1 :=
    prod3_le hh0 (by linarith) hNOl hhu hHO2u hNOu
  have P7l : 0 ≤ kH * c.HO2 * c.NO :=
    mul_nonneg (mul_nonneg hh0 (by linarith)) hNOl
  have P8u : 1.2e-11 * c.NO2 * c.OH ≤ 1.2e-11 * 1 * 0.2 :=
    prod3_le (by norm_num) hNO2l (by linarith) (le_refl _) hNO2u hOHu
  have P8l : 0 ≤ 1.2e-11 * c.NO2 * c.OH :=
    mul_nonneg (mul_nonneg (by norm_num) hNO2l) (by linarith)
  have P9u : 4.8e-11 * c.OH * c.HO2 ≤ 4.8e-11 * 0.2 * 11 :=
    prod3_le (by norm_num) (by linarith) (by linarith) (le_refl _) hOHu hHO2u
  have P9l : 0 ≤ 4.8e-11 * c.OH * c.HO2 :=
    mul_nonneg (mul_nonneg (by norm_num) (by linarith)) (by linarith)
  have P10u : 2.3e-13 * c.HO2 * c.HO2 ≤ 2.3e-13 * 11 * 11 :=
    prod3_le (by norm_num) (by linarith) (by linarith) (le_refl _) hHO2u hHO2u
  have P10l : 0 ≤ 2.3e-13 * c.HO2 * c.HO2 :=
    mul_nonneg (mul_nonneg (by norm_num) (by linarith)) (by linarith)
  have P11u : kN * c.NO * c.O3 ≤ 3e-12 * 1 * 41 :=
    prod3_le hnl hNOl (by linarith) hnu hNOu hO3u
  have P11l : 0 ≤ kN * c.NO * c.O3 :=
    mul_nonneg (mul_nonneg hnl hNOl) (by linarith)
  have P12u : j1 * c.NO2 ≤ 8e-3 * 1 := prod2_le hj1l hNO2l hj1u hNO2u
  have P12l : 0 ≤ j1 * c.NO2 := mul_nonneg hj1l hNO2l
  have P13u : j2 * c.O3 ≤ 3e-5 * 41 := prod2_le hj2l (by linarith) hj2u hO3u
  have P13l : 0 ≤ j2 * c.O3 := mul_nonneg hj2l (by linarith)
  refine ⟨⟨?_, ?_⟩, ⟨?_, ?_⟩, ⟨?_, ?_⟩, ⟨?_, ?_⟩, ⟨?_, ?_⟩, ⟨?_, ?_⟩,
    ⟨?_, ?_⟩, ⟨?_, ?_⟩, ⟨?_, ?_⟩, ⟨?_, ?_⟩⟩ <;> linarith


lemma hstep_lb {h d dl : ℝ} (h0 : 0 ≤ h) (h60 : h ≤ 60) (hd : dl ≤ d)
    (hdl : dl ≤ 0) : 60 * dl ≤ h * d := by nlinarith

lemma hstep_ub {h d du : ℝ} (h0 : 0 ≤ h) (h60 : h ≤ 60) (hd : d ≤ du)
    (hdu : 0 ≤ du) : h * d ≤ 60 * du := by nlinarith

set_option maxHeartbeats 2000000 in
/-- Any RK4 stage vector formed from the `background` preset with step factor
`0 ≤ h ≤ 60` and a derivative evaluated inside the box stays inside the box. -/
lemma boxStep (sza h : ℝ) (c' : Conc) (hc' : inBox c') (h0 : 0 ≤ h)
    (h60 : h ≤ 60) :
    inBox (stageClamp backgroundConc h (calculateRates c' 298 1000 sza)) := by
  obtain ⟨⟨d1l, d1u⟩, ⟨d2l, d2u⟩, ⟨d3l, d3u⟩, ⟨d4l, d4u⟩, ⟨d5l, d5u⟩,
    ⟨d6l, d6u⟩, ⟨d7l, d7u⟩, ⟨d8l, d8u⟩, ⟨d9l, d9u⟩, ⟨d10l, d10u⟩⟩ :=
    rates_bounds sza c' hc'
  set R := calculateRates c' 298 1000 sza with hR
  have bCH4l := hstep_lb h0 h60 d1l (by norm_num)
  have bCH4u := hstep_ub h0 h60 d1u (by norm_num)
  have bMOu := hstep_ub h0 h60 d2u (by norm_num)
  have bFl := hstep_lb h0 h60 d3l (by norm_num)
  have bFu := hstep_ub h0 h60 d3u (by norm_num)
  have bCOl := hstep_lb h0 h60 d4l (by norm_num)
  have bCOu := hstep_ub h0 h60 d4u (by norm_num)
  have bOHl := hstep_lb h0 h60 d6l (by norm_num)
  have bOHu := hstep_ub h0 h60 d6u (by norm_num)
  have bHO2l := hstep_lb h0 h60 d7l (by norm_num)
  have bHO2u := hstep_ub h0 h60 d7u (by norm_num)
  have bNOl := hstep_lb h0 h60 d8l (by norm_num)
  have bNOu := hstep_ub h0 h60 d8u (by norm_num)
  have bNO2u := hstep_ub h0 h60 d9u (by norm_num)
  have bO3l := hstep_lb h0 h60 d10l (by norm_num)
  have bO3u := hstep_ub h0 h60 d10u (by norm_num)
  unfold inBox stageClamp backgroundConc
  refine ⟨?_, ?_, ?_, ?_, ?_, ?_, ?_, ?_, ?_, ?_, ?_, ?_, ?_, ?_, ?_, ?_, ?_, ?_⟩
  · exact le_max_of_le_right (by linarith)
  · exact max_le (by norm_num) (by linarith)
  · exact le_max_of_le_right (by linarith)
  · exact max_le (by norm_num) (by linarith)
  · exact le_max_of_le_right (by linarith)
  · exact max_le (by norm_num) (by linarith)
  · exact le_max_of_le_right (by linarith)
  · exact max_le (by norm_num) (by linarith)
  · exact le_max_of_le_right (by linarith)
  · exact max_le (by norm_num) (by linarith)
  · exact le_max_left _ _
  · exact max_le (by norm_num) (by linarith)
  · exact le_max_left _ _
  · exact max_le (by norm_num) (by linarith)
  · exact le_max_left _ _
  · exact max_le (by norm_num) (by linarith)
  · exact le_max_of_le_right (by linarith)
  · exact max_le (by norm_num) (by linarith)


lemma addEmissions_zero (k : Conc) : addEmissions ⟨0, 0⟩ k = k := by
  unfold addEmissions
  ext <;> simp

/-- Unfolding of `rk4Step` into its four staged derivative evaluations. -/
lemma rk4Step_unfold (c : Conc) (dt T P sza : ℝ) (e : Emissions) :
    rk4Step c dt T P sza e =
      finalUpdate c dt
        (addEmissions e (calculateRates c T P sza))
        (addEmissions e (calculateRates (stageClamp c (0.5 * dt) (addEmissions e (calculateRates c T P sza))) T P sza))
        (addEmissions e (calculateRates (stageClamp c (0.5 * dt) (addEmissions e (calculateRates (stageClamp c (0.5 * dt) (addEmissions e (calculateRates c T P sza))) T P sza))) T P sza))
        (addEmissions e (calculateRates (stageClamp c dt (addEmissions e (calculateRates (stageClamp c (0.5 * dt) (addEmissions e (calculateRates (stageClamp c (0.5 * dt) (addEmissions e (calculateRates c T P sza))) T P sza))) T P sza))) T P sza)) := rfl

/-- With both emission rates zero, the staged derivatives are bare
`calculateRates` evaluations. -/
lemma rk4Step_zero_emissions (c : Conc) (dt T P sza : ℝ) :
    rk4Step c dt T P sza ⟨0, 0⟩ =
      finalUpdate c dt
        (calculateRates c T P sza)
        (calculateRates (stageClamp c (0.5 * dt) (calculateRates c T P sza)) T P sza)
        (calculateRates (stageClamp c (0.5 * dt) (calculateRates (stageClamp c (0.5 * dt) (calculateRates c T P sza)) T P sza)) T P sza)
        (calculateRates (stageClamp c dt (calculateRates (stageClamp c (0.5 * dt) (calculateRates (stageClamp c (0.5 * dt) (calculateRates c T P sza)) T P sza)) T P sza)) T P sza) := by
  rw [rk4Step_unfold]
  simp only [addEmissions_zero]

lemma addEmissions_eq_add (e : Emissions) (k : Conc) :
    addEmissions e k = k.add (specEmissionTerm e) := by
  unfold addEmissions specEmissionTerm Conc.add
  ext <;> simp

lemma stageClamp_eq_spec (c : Conc) (h : ℝ) (k : Conc) :
    stageClamp c h k = specClamp (c.add (Conc.smul h k)) := rfl

lemma finalUpdate_eq_spec (c : Conc) (dt : ℝ) (k1 k2 k3 k4 : Conc) :
    finalUpdate c dt k1 k2 k3 k4 =
      specClamp (c.add (Conc.smul (dt / 6)
        (k1.add ((Conc.smul 2 k2).add ((Conc.smul 2 k3).add k4))))) := by
  unfold finalUpdate specClamp Conc.add Conc.smul
  ext <;> (congr 1; ring_nf)

lemma jform_zero_in_90_270 (j0 n sza : ℝ) (hn : 0 < n) (h90 : 90 ≤ sza)
    (h270 : sza ≤ 270) :
    j0 * (max 0 (Real.cos (sza * Real.pi / 180))) ^ n = 0 := by
  have hpi := Real.pi_pos
  have h1 : Real.pi / 2 ≤ sza * Real.pi / 180 := by
    nlinarith [mul_nonneg (show (0 : ℝ) ≤ sza - 90 by linarith) hpi.le]
  have h2 : sza * Real.pi / 180 ≤ Real.pi + Real.pi / 2 := by
    nlinarith [mul_nonneg (show (0 : ℝ) ≤ 270 - sza by linarith) hpi.le]
  have hcos : Real.cos (sza * Real.pi / 180) ≤ 0 :=
    Real.cos_nonpos_of_pi_div_two_le_of_le h1 h2
  rw [max_eq_left hcos, Real.zero_rpow (ne_of_gt hn), mul_zero]

lemma jform_pos_day (j0 n sza : ℝ) (hj : 0 < j0) (h0 : 0 ≤ sza)
    (h90 : sza < 90) :
    0 < j0 * (max 0 (Real.cos (sza * Real.pi / 180))) ^ n := by
  have hpi := Real.pi_pos
  have h1 : -(Real.pi / 2) < sza * Real.pi / 180 := by
    have := div_nonneg (mul_nonneg h0 hpi.le) (by norm_num : (0 : ℝ) ≤ 180)
    linarith
  have h2 : sza * Real.pi / 180 < Real.pi / 2 := by
    nlinarith [mul_pos (show (0 : ℝ) < 90 - sza by linarith) hpi]
  have hcos : 0 < Real.cos (sza * Real.pi / 180) :=
    Real.cos_pos_of_mem_Ioo ⟨h1, h2⟩
  rw [max_eq_right hcos.le]
  exact mul_pos hj (Real.rpow_pos_of_pos hcos n)

lemma jform_strict_anti (j0 n sza sza' : ℝ) (hj : 0 < j0) (hn : 0 < n)
    (h0 : 0 ≤ sza) (hlt : sza < sza') (h90 : sza' < 90) :
    j0 * (max 0 (Real.cos (sza' * Real.pi / 180))) ^ n <
    j0 * (max 0 (Real.cos (sza * Real.pi / 180))) ^ n := by
  have hpi := Real.pi_pos
  have ha : 0 ≤ sza * Real.pi / 180 :=
    div_nonneg (mul_nonneg h0 hpi.le) (by norm_num)
  have hb : sza' * Real.pi / 180 ≤ Real.pi := by
    nlinarith [mul_pos (show (0 : ℝ) < 90 - sza' by linarith) hpi]
  have hab : sza * Real.pi / 180 < sza' * Real.pi / 180 := by
    nlinarith [mul_pos (show (0 : ℝ) < sza' - sza by linarith) hpi]
  have hcos' : 0 < Real.cos (sza' * Real.pi / 180) :=
    Real.cos_pos_of_mem_Ioo ⟨by
      have := div_nonneg (mul_nonneg (show (0 : ℝ) ≤ sza' by linarith) hpi.le)
        (by norm_num : (0 : ℝ) ≤ 180)
      linarith, by
      nlinarith [mul_pos (show (0 : ℝ) < 90 - sza' by linarith) hpi]⟩
  have hlt2 : Real.cos (sza' * Real.pi / 180) < Real.cos (sza * Real.pi / 180) :=
    Real.cos_lt_cos_of_nonneg_of_le_pi ha hb hab
  rw [max_eq_right hcos'.le,
    max_eq_right (by linarith : (0 : ℝ) ≤ Real.cos (sza * Real.pi / 180))]
  exact mul_lt_mul_of_pos_left (Real.rpow_lt_rpow hcos'.le hlt2 hn) hj

lemma jCH2O_at_90 : calculateJValue "CH2O_photolysis" 90 = 0 := by
  rw [calculateJValue_CH2O_eq]
  have h : (90 : ℝ) * Real.pi / 180 = Real.pi / 2 := by ring
  rw [h, Real.cos_pi_div_two]
  rw [max_self, Real.zero_rpow (by norm_num), mul_zero]

/-- At night (`sza = 90`) the three-species carbon proxy derivative is
strictly negative over the box: CH4 loss feeds CH3O2, outside the proxy. -/
lemma rates_carbon3_night (c : Conc) (hc : inBox c) :
    (calculateRates c 298 1000 90).CH4 + (calculateRates c 298 1000 90).CO +
      (calculateRates c 298 1000 90).CO2 ≤ -3.5e-10 := by
  obtain ⟨hCH4l, hCH4u, hCOl, hCOu, hOHl, hOHu, hHO2l, hHO2u, hO3l, hO3u,
    hNOl, hNOu, hNO2l, hNO2u, hMOl, hMOu, hFl, hFu⟩ := hc
  obtain ⟨hκl, hκu⟩ := kCH4OH_bounds
  have hκ0 : (0 : ℝ) ≤ arrhenius 2.45e-12 (-1775) 298 := le_trans (by norm_num) hκl
  simp only [calculateRates, grc_CH4_OH, grc_CH2O_OH, grc_CH2O_photolysis,
    grc_CO_OH, jCH2O_at_90]
  have P1l : 4.2e-12 * 1700 * 0.05 ≤ arrhenius 2.45e-12 (-1775) 298 * c.CH4 * c.OH :=
    prod3_le (by norm_num) (by norm_num) (by norm_num) hκl hCH4l hOHl
  have P3u : 5.5e-12 * c.CH2O * c.OH ≤ 5.5e-12 * 2 * 0.2 :=
    prod3_le (by norm_num) (by linarith) (by linarith) (le_refl _) hFu hOHu
  linarith

/-- Total carbon over all five carbon-bearing species is exactly conserved by
the kinetics RHS. -/
lemma carbon5_rates (c : Conc) (T P sza : ℝ) :
    (calculateRates c T P sza).CH4 + (calculateRates c T P sza).CH3O2 +
    (calculateRates c T P sza).CH2O + (calculateRates c T P sza).CO +
    (calculateRates c T P sza).CO2 = 0 := by
  simp only [calculateRates]
  ring

lemma R1_CH4_strict :
    (calculateRates backgroundConc 298 1000 0).CH4 ≤ -7.5e-10 := by
  have hbg1 : backgroundConc.CH4 = 1800 := rfl
  have hbg2 : backgroundConc.OH = 0.1 := rfl
  simp only [calculateRates, grc_CH4_OH, hbg1, hbg2]
  obtain ⟨hl, _⟩ := kCH4OH_bounds
  nlinarith

lemma addEmissions_CO2 (e : Emissions) (k : Conc) :
    (addEmissions e k).CO2 = k.CO2 := rfl

lemma grc_COOH_nonneg (T P sza : ℝ) (hP : 0 ≤ P) :
    0 ≤ getRateConstant "CO_OH" T P sza := by
  rw [grc_CO_OH]
  unfold arrhenius
  have h1 : (0 : ℝ) < Real.exp (-0 / (Rgas * T)) := Real.exp_pos _
  have h2 : (0 : ℝ) ≤ 1 + 0.6 * P / 1013 := by
    have : (0 : ℝ) ≤ 0.6 * P / 1013 := div_nonneg (by linarith) (by norm_num)
    linarith
  have h3 : (0 : ℝ) ≤ 1.5e-13 * Real.exp (-0 / (Rgas * T)) :=
    mul_nonneg (by norm_num) h1.le
  exact mul_nonneg h3 h2

lemma rates_CO2_nonneg (x : Conc) (T P sza : ℝ) (hP : 0 ≤ P)
    (hco : 0 ≤ x.CO) (hoh : 0 ≤ x.OH) :
    0 ≤ (calculateRates x T P sza).CO2 := by
  simp only [calculateRates]
  exact mul_nonneg (mul_nonneg (grc_COOH_nonneg T P sza hP) hco) hoh

lemma rates_CO2_stage_nonneg (a : Conc) (h : ℝ) (k : Conc) (T P sza : ℝ)
    (hP : 0 ≤ P) :
    0 ≤ (calculateRates (stageClamp a h k) T P sza).CO2 :=
  rates_CO2_nonneg _ T P sza hP (le_max_left _ _) (le_max_left _ _)

/-- C10 (amended): for every nonnegative input vector, every `dt ≥ 0`, every
T and sza, and every pressure `P ≥ 0`, the CO2 entry returned by `rk4Step` is
at least the input CO2 entry: CO2 has no loss term and receives no
emission. -/
theorem rk4Step_CO2_monotone (c : Conc) (dt T P sza : ℝ) (e : Emissions)
    (hc : 0 ≤ c.CH4 ∧ 0 ≤ c.CO ∧ 0 ≤ c.CO2 ∧ 0 ≤ c.OH ∧ 0 ≤ c.HO2 ∧
      0 ≤ c.O3 ∧ 0 ≤ c.NO ∧ 0 ≤ c.NO2 ∧ 0 ≤ c.CH3O2 ∧ 0 ≤ c.CH2O)
    (hdt : 0 ≤ dt) (hP : 0 ≤ P) :
    c.CO2 ≤ (rk4Step c dt T P sza e).CO2 := by
  rw [rk4Step_unfold]
  simp only [finalUpdate, addEmissions_CO2]
  have n1 : 0 ≤ (calculateRates c T P sza).CO2 :=
    rates_CO2_nonneg c T P sza hP hc.2.1 hc.2.2.2.1
  have n2 := rates_CO2_stage_nonneg c (0.5 * dt)
    (addEmissions e (calculateRates c T P sza)) T P sza hP
  have n3 := rates_CO2_stage_nonneg c (0.5 * dt)
    (addEmissions e (calculateRates (stageClamp c (0.5 * dt)
      (addEmissions e (calculateRates c T P sza))) T P sza)) T P sza hP
  have n4 := rates_CO2_stage_nonneg c dt
    (addEmissions e (calculateRates (stageClamp c (0.5 * dt)
      (addEmissions e (calculateRates (stageClamp c (0.5 * dt)
        (addEmissions e (calculateRates c T P sza))) T P sza))) T P sza)) T P sza hP
  apply le_max_of_le_right
  have hq : 0 ≤ dt / 6 := by linarith
  nlinarith

/-- Witness for C10 (amended) at the background preset. -/
theorem rk4Step_CO2_monotone_witness :
    (0 ≤ backgroundConc.CH4 ∧ 0 ≤ backgroundConc.CO ∧ 0 ≤ backgroundConc.CO2 ∧
      0 ≤ backgroundConc.OH ∧ 0 ≤ backgroundConc.HO2 ∧ 0 ≤ backgroundConc.O3 ∧
      0 ≤ backgroundConc.NO ∧ 0 ≤ backgroundConc.NO2 ∧
      0 ≤ backgroundConc.CH3O2 ∧ 0 ≤ backgroundConc.CH2O) ∧
    (0 : ℝ) ≤ 60 ∧ (0 : ℝ) ≤ 1000 ∧
    backgroundConc.CO2 ≤ (rk4Step backgroundConc 60 298 1000 0 ⟨10, 5⟩).CO2 :=
  ⟨by norm_num [backgroundConc], by norm_num, by norm_num,
   rk4Step_CO2_monotone backgroundConc 60 298 1000 0 ⟨10, 5⟩
     (by norm_num [backgroundConc]) (by norm_num) (by norm_num)⟩

lemma kCOOH_negP_value :
    arrhenius 1.5e-13 0 298 * (1 + 0.6 * (-101300) / 1013) = -8.85e-12 := by
  unfold arrhenius Rgas
  have hx : -(0 : ℝ) / (8.314 * 298) = 0 := by norm_num
  rw [hx, Real.exp_zero]
  norm_num

lemma rates_CO2_negP (x : Conc) (sza : ℝ) (hco : 0 ≤ x.CO) (hoh : 0 ≤ x.OH) :
    (calculateRates x 298 (-101300) sza).CO2 ≤ 0 := by
  simp only [calculateRates, grc_CO_OH, kCOOH_negP_value]
  nlinarith [mul_nonneg hco hoh]

lemma rates_CO2_negP_stage (a : Conc) (h : ℝ) (k : Conc) (sza : ℝ) :
    (calculateRates (stageClamp a h k) 298 (-101300) sza).CO2 ≤ 0 :=
  rates_CO2_negP _ sza (le_max_left _ _) (le_max_left _ _)

lemma rates_CO2_negP_bg :
    (calculateRates backgroundConc 298 (-101300) 0).CO2 = -8.85e-11 := by
  have e1 : backgroundConc.CO = 100 := rfl
  have e2 : backgroundConc.OH = 0.1 := rfl
  simp only [calculateRates, grc_CO_OH, kCOOH_negP_value, e1, e2]
  norm_num

/-- Counterexample to C10 as stated: at the unphysical pressure
`P = -101300` the empirical pressure correction makes the CO + OH rate
constant negative, so from the background preset with `dt = 6 ≥ 0` the CO2
entry strictly decreases. -/
theorem rk4Step_CO2_decreases_neg_pressure :
    (rk4Step backgroundConc 6 298 (-101300) 0 ⟨0, 0⟩).CO2 <
      backgroundConc.CO2 := by
  rw [rk4Step_zero_emissions]
  have e3 : backgroundConc.CO2 = 400000 := rfl
  simp only [finalUpdate, e3]
  have n1 := rates_CO2_negP_bg
  have n2 := rates_CO2_negP_stage backgroundConc (0.5 * 6)
    (calculateRates backgroundConc 298 (-101300) 0) 0
  have n3 := rates_CO2_negP_stage backgroundConc (0.5 * 6)
    (calculateRates (stageClamp backgroundConc (0.5 * 6)
      (calculateRates backgroundConc 298 (-101300) 0)) 298 (-101300) 0) 0
  have n4 := rates_CO2_negP_stage backgroundConc 6
    (calculateRates (stageClamp backgroundConc (0.5 * 6)
      (calculateRates (stageClamp backgroundConc (0.5 * 6)
        (calculateRates backgroundConc 298 (-101300) 0)) 298 (-101300) 0))
      298 (-101300) 0) 0
  apply max_lt (by norm_num)
  linarith

lemma updateDiurnalCycle_time (s : SimState) :
    (updateDiurnalCycle s).time = s.time := by
  unfold updateDiurnalCycle
  split <;> rfl

lemma updateDiurnalCycle_tsTimes (s : SimState) :
    (updateDiurnalCycle s).tsTimes = s.tsTimes := by
  unfold updateDiurnalCycle
  split <;> rfl

lemma stepSimulation_tsTimes (dt : ℝ) (s : SimState) :
    (stepSimulation dt s).tsTimes =
      if s.tsTimes.length = 0 ∨ dt * 10 ≤ (s.time + dt) - s.tsTimes.getLastD 0
      then s.tsTimes ++ [s.time + dt] else s.tsTimes := by
  unfold stepSimulation
  simp only [updateDiurnalCycle_tsTimes, updateDiurnalCycle_time]
  split_ifs with h1 <;>
    simp only [updateDiurnalCycle_tsTimes, updateDiurnalCycle_time]

lemma stepSimulation_gap (dt : ℝ) (s : SimState) (hs : sampleGapOK dt s.tsTimes) :
    sampleGapOK dt (stepSimulation dt s).tsTimes := by
  rw [stepSimulation_tsTimes]
  split_ifs with h
  · rcases h with h | h
    · have hnil : s.tsTimes = [] := List.length_eq_zero.mp h
      simp [sampleGapOK, hnil]
    · unfold sampleGapOK at hs ⊢
      rw [List.chain'_append]
      refine ⟨hs, by simp, ?_⟩
      intro x hx y hy
      simp only [List.head?_cons, Option.mem_def, Option.some.injEq] at hy
      subst hy
      have hlast : s.tsTimes.getLastD 0 = x := by
        rw [List.getLastD_eq_getLast?, Option.mem_def.mp hx]
        rfl
      rw [← hlast]
      linarith
  · exact hs

/-- C2: for every nonnegative concentration vector and every dt, T, P, sza
and emissions, `rk4Step` computes exactly the staged formula of the
specification: `k_i = RHS(clamped stage) + e` with element-wise clamping of
every intermediate stage and of the final result, environment parameters held
fixed across the four stages. -/
theorem rk4Step_eq_specStepOne (c : Conc) (dt T P sza : ℝ) (e : Emissions)
    (hc : 0 ≤ c.CH4 ∧ 0 ≤ c.CO ∧ 0 ≤ c.CO2 ∧ 0 ≤ c.OH ∧ 0 ≤ c.HO2 ∧
      0 ≤ c.O3 ∧ 0 ≤ c.NO ∧ 0 ≤ c.NO2 ∧ 0 ≤ c.CH3O2 ∧ 0 ≤ c.CH2O) :
    rk4Step c dt T P sza e = specStepOne c dt T P sza e := by
  rw [rk4Step_unfold]
  simp only [specStepOne, addEmissions_eq_add, stageClamp_eq_spec,
    finalUpdate_eq_spec, show (0.5 : ℝ) * dt = dt / 2 from by ring]

/-- Witness for C2 at the background preset. -/
theorem rk4Step_eq_specStepOne_witness :
    (0 ≤ backgroundConc.CH4 ∧ 0 ≤ backgroundConc.CO ∧ 0 ≤ backgroundConc.CO2 ∧
      0 ≤ backgroundConc.OH ∧ 0 ≤ backgroundConc.HO2 ∧ 0 ≤ backgroundConc.O3 ∧
      0 ≤ backgroundConc.NO ∧ 0 ≤ backgroundConc.NO2 ∧
      0 ≤ backgroundConc.CH3O2 ∧ 0 ≤ backgroundConc.CH2O) ∧
    rk4Step backgroundConc 60 298 1000 0 ⟨10, 5⟩ =
      specStepOne backgroundConc 60 298 1000 0 ⟨10, 5⟩ :=
  ⟨by norm_num [backgroundConc],
   rk4Step_eq_specStepOne backgroundConc 60 298 1000 0 ⟨10, 5⟩
     (by norm_num [backgroundConc])⟩

/-- Counterexample to C3 as stated: at `sza = 360 ≥ 90` the photolysis rate
is `8e-3 * cos(2*pi)^1 = 8e-3`, not zero, because the clamped cosine is
positive again past 270 degrees. -/
theorem calculateJValue_positive_beyond_270 :
    (90 : ℝ) ≤ 360 ∧ calculateJValue "NO2_photolysis" 360 ≠ 0 := by
  refine ⟨by norm_num, ?_⟩
  rw [calculateJValue_NO2_eq]
  have h : (360 : ℝ) * Real.pi / 180 = 2 * Real.pi := by ring
  rw [h, Real.cos_two_pi, max_eq_right (by norm_num : (0 : ℝ) ≤ 1),
    Real.one_rpow, mul_one]
  norm_num

/-- C3 (amended): for each of the three photolysis reactions the J-value is
exactly 0 for every sza in [90, 270], strictly positive for sza in [0, 90),
and strictly decreasing in sza on [0, 90). -/
theorem calculateJValue_daynight (r : String)
    (hr : r = "NO2_photolysis" ∨ r = "O3_to_O1D" ∨ r = "CH2O_photolysis") :
    (∀ sza : ℝ, 90 ≤ sza → sza ≤ 270 → calculateJValue r sza = 0) ∧
    (∀ sza : ℝ, 0 ≤ sza → sza < 90 → 0 < calculateJValue r sza) ∧
    (∀ sza sza' : ℝ, 0 ≤ sza → sza < sza' → sza' < 90 →
      calculateJValue r sza' < calculateJValue r sza) := by
  rcases hr with rfl | rfl | rfl
  · exact ⟨fun sza h1 h2 => by
        rw [calculateJValue_NO2_eq]
        exact jform_zero_in_90_270 _ _ _ (by norm_num) h1 h2,
      fun sza h1 h2 => by
        rw [calculateJValue_NO2_eq]
        exact jform_pos_day _ _ _ (by norm_num) h1 h2,
      fun sza sza' h1 h2 h3 => by
        rw [calculateJValue_NO2_eq, calculateJValue_NO2_eq]
        exact jform_strict_anti _ _ _ _ (by norm_num) (by norm_num) h1 h2 h3⟩
  · exact ⟨fun sza h1 h2 => by
        rw [calculateJValue_O3_eq]
        exact jform_zero_in_90_270 _ _ _ (by norm_num) h1 h2,
      fun sza h1 h2 => by
        rw [calculateJValue_O3_eq]
        exact jform_pos_day _ _ _ (by norm_num) h1 h2,
      fun sza sza' h1 h2 h3 => by
        rw [calculateJValue_O3_eq, calculateJValue_O3_eq]
        exact jform_strict_anti _ _ _ _ (by norm_num) (by norm_num) h1 h2 h3⟩
  · exact ⟨fun sza h1 h2 => by
        rw [calculateJValue_CH2O_eq]
        exact jform_zero_in_90_270 _ _ _ (by norm_num) h1 h2,
      fun sza h1 h2 => by
        rw [calculateJValue_CH2O_eq]
        exact jform_pos_day _ _ _ (by norm_num) h1 h2,
      fun sza sza' h1 h2 h3 => by
        rw [calculateJValue_CH2O_eq, calculateJValue_CH2O_eq]
        exact jform_strict_anti _ _ _ _ (by norm_num) (by norm_num) h1 h2 h3⟩

/-- Witness for C3 (amended) at the NO2 photolysis reaction. -/
theorem calculateJValue_daynight_witness :
    ("NO2_photolysis" = "NO2_photolysis" ∨ "NO2_photolysis" = "O3_to_O1D" ∨
      "NO2_photolysis" = "CH2O_photolysis") ∧
    ((∀ sza : ℝ, 90 ≤ sza → sza ≤ 270 →
        calculateJValue "NO2_photolysis" sza = 0) ∧
      (∀ sza : ℝ, 0 ≤ sza → sza < 90 →
        0 < calculateJValue "NO2_photolysis" sza) ∧
      (∀ sza sza' : ℝ, 0 ≤ sza → sza < sza' → sza' < 90 →
        calculateJValue "NO2_photolysis" sza' <
          calculateJValue "NO2_photolysis" sza)) :=
  ⟨Or.inl rfl, calculateJValue_daynight "NO2_photolysis" (Or.inl rfl)⟩

/-- Counterexample to C4 as stated: from the background preset with zero
emissions at `dt = 60`, `T = 298`, `P = 1000`, `sza = 90` (night), one RK4
step strictly decreases the three-species proxy CH4 + CO + CO2, because CH4
oxidation moves carbon into CH3O2, which the proxy does not count, while the
CH2O-to-CO photolysis source is shut off. -/
theorem carbon3_decreases_at_night :
    (rk4Step backgroundConc 60 298 1000 90 ⟨0, 0⟩).CH4 +
      (rk4Step backgroundConc 60 298 1000 90 ⟨0, 0⟩).CO +
      (rk4Step backgroundConc 60 298 1000 90 ⟨0, 0⟩).CO2 <
    backgroundConc.CH4 + backgroundConc.CO + backgroundConc.CO2 := by
  have h0 := backgroundConc_inBox
  have hb2 := boxStep 90 (0.5 * 60) backgroundConc h0 (by norm_num) (by norm_num)
  have hb3 := boxStep 90 (0.5 * 60) _ hb2 (by norm_num) (by norm_num)
  have hb4 := boxStep 90 60 _ hb3 (by norm_num) (by norm_num)
  have B1 := rates_bounds 90 backgroundConc h0
  have B2 := rates_bounds 90 _ hb2
  have B3 := rates_bounds 90 _ hb3
  have B4 := rates_bounds 90 _ hb4
  have C1 := rates_carbon3_night backgroundConc h0
  have C2 := rates_carbon3_night _ hb2
  have C3 := rates_carbon3_night _ hb3
  have C4 := rates_carbon3_night _ hb4
  obtain ⟨⟨B1a, _⟩, _, _, ⟨B1co, _⟩, ⟨B1co2, _⟩, _⟩ := B1
  obtain ⟨⟨B2a, _⟩, _, _, ⟨B2co, _⟩, ⟨B2co2, _⟩, _⟩ := B2
  obtain ⟨⟨B3a, _⟩, _, _, ⟨B3co, _⟩, ⟨B3co2, _⟩, _⟩ := B3
  obtain ⟨⟨B4a, _⟩, _, _, ⟨B4co, _⟩, ⟨B4co2, _⟩, _⟩ := B4
  have e1 : backgroundConc.CH4 = 1800 := rfl
  have e2 : backgroundConc.CO = 100 := rfl
  have e3 : backgroundConc.CO2 = 400000 := rfl
  rw [rk4Step_zero_emissions]
  simp only [finalUpdate, e1, e2, e3]
  rw [max_eq_right (by linarith), max_eq_right (by linarith),
    max_eq_right (by linarith)]
  linarith

/-- C4 (amended): with zero emissions, starting from the background preset,
the total carbon over all five carbon-bearing species
CH4 + CH3O2 + CH2O + CO + CO2 is non-decreasing over a single `rk4Step`, for
every dt, T, P, sza: the RHS conserves it exactly and clamping only adds. -/
theorem carbon5_nondecreasing (dt T P sza : ℝ) :
    backgroundConc.CH4 + backgroundConc.CH3O2 + backgroundConc.CH2O +
      backgroundConc.CO + backgroundConc.CO2 ≤
    (rk4Step backgroundConc dt T P sza ⟨0, 0⟩).CH4 +
      (rk4Step backgroundConc dt T P sza ⟨0, 0⟩).CH3O2 +
      (rk4Step backgroundConc dt T P sza ⟨0, 0⟩).CH2O +
      (rk4Step backgroundConc dt T P sza ⟨0, 0⟩).CO +
      (rk4Step backgroundConc dt T P sza ⟨0, 0⟩).CO2 := by
  rw [rk4Step_zero_emissions]
  simp only [finalUpdate]
  have z1 := carbon5_rates backgroundConc T P sza
  have z2 := carbon5_rates (stageClamp backgroundConc (0.5 * dt)
    (calculateRates backgroundConc T P sza)) T P sza
  have z3 := carbon5_rates (stageClamp backgroundConc (0.5 * dt)
    (calculateRates (stageClamp backgroundConc (0.5 * dt)
      (calculateRates backgroundConc T P sza)) T P sza)) T P sza
  have z4 := carbon5_rates (stageClamp backgroundConc dt
    (calculateRates (stageClamp backgroundConc (0.5 * dt)
      (calculateRates (stageClamp backgroundConc (0.5 * dt)
        (calculateRates backgroundConc T P sza)) T P sza)) T P sza)) T P sza
  set T1 := calculateRates backgroundConc T P sza
  set T2 := calculateRates (stageClamp backgroundConc (0.5 * dt) T1) T P sza
  set T3 := calculateRates (stageClamp backgroundConc (0.5 * dt) T2) T P sza
  set T4 := calculateRates (stageClamp backgroundConc dt T3) T P sza
  have m1 := le_max_right (0 : ℝ)
    (backgroundConc.CH4 + dt / 6 * (T1.CH4 + 2 * T2.CH4 + 2 * T3.CH4 + T4.CH4))
  have m2 := le_max_right (0 : ℝ)
    (backgroundConc.CH3O2 + dt / 6 * (T1.CH3O2 + 2 * T2.CH3O2 + 2 * T3.CH3O2 + T4.CH3O2))
  have m3 := le_max_right (0 : ℝ)
    (backgroundConc.CH2O + dt / 6 * (T1.CH2O + 2 * T2.CH2O + 2 * T3.CH2O + T4.CH2O))
  have m4 := le_max_right (0 : ℝ)
    (backgroundConc.CO + dt / 6 * (T1.CO + 2 * T2.CO + 2 * T3.CO + T4.CO))
  have m5 := le_max_right (0 : ℝ)
    (backgroundConc.CO2 + dt / 6 * (T1.CO2 + 2 * T2.CO2 + 2 * T3.CO2 + T4.CO2))
  have hsum : (backgroundConc.CH4 + dt / 6 * (T1.CH4 + 2 * T2.CH4 + 2 * T3.CH4 + T4.CH4)) +
      (backgroundConc.CH3O2 + dt / 6 * (T1.CH3O2 + 2 * T2.CH3O2 + 2 * T3.CH3O2 + T4.CH3O2)) +
      (backgroundConc.CH2O + dt / 6 * (T1.CH2O + 2 * T2.CH2O + 2 * T3.CH2O + T4.CH2O)) +
      (backgroundConc.CO + dt / 6 * (T1.CO + 2 * T2.CO + 2 * T3.CO + T4.CO)) +
      (backgroundConc.CO2 + dt / 6 * (T1.CO2 + 2 * T2.CO2 + 2 * T3.CO2 + T4.CO2)) =
      backgroundConc.CH4 + backgroundConc.CH3O2 + backgroundConc.CH2O +
        backgroundConc.CO + backgroundConc.CO2 := by
    linear_combination (dt / 6) * z1 + (dt / 3) * z2 + (dt / 3) * z3 + (dt / 6) * z4
  linarith

/-- C6: from the background preset with `T = 298`, `P = 1000`, `sza = 0`,
zero emissions and `dt = 60`, one `rk4Step` strictly decreases CH4 below 1800
and strictly increases CH3O2 above 0.01. -/
theorem background_step_CH4_CH3O2 :
    (rk4Step backgroundConc 60 298 1000 0 ⟨0, 0⟩).CH4 < 1800 ∧
    0.01 < (rk4Step backgroundConc 60 298 1000 0 ⟨0, 0⟩).CH3O2 := by
  have h0 := backgroundConc_inBox
  have hb2 := boxStep 0 (0.5 * 60) backgroundConc h0 (by norm_num) (by norm_num)
  have hb3 := boxStep 0 (0.5 * 60) _ hb2 (by norm_num) (by norm_num)
  have hb4 := boxStep 0 60 _ hb3 (by norm_num) (by norm_num)
  have B1 := rates_bounds 0 backgroundConc h0
  have B2 := rates_bounds 0 _ hb2
  have B3 := rates_bounds 0 _ hb3
  have B4 := rates_bounds 0 _ hb4
  obtain ⟨⟨_, B1b⟩, ⟨B1c, _⟩, _⟩ := B1
  obtain ⟨⟨_, B2b⟩, ⟨B2c, _⟩, _⟩ := B2
  obtain ⟨⟨_, B3b⟩, ⟨B3c, _⟩, _⟩ := B3
  obtain ⟨⟨_, B4b⟩, ⟨B4c, _⟩, _⟩ := B4
  have hS := R1_CH4_strict
  rw [rk4Step_zero_emissions]
  constructor
  · have hbg : backgroundConc.CH4 = 1800 := rfl
    simp only [finalUpdate, hbg]
    apply max_lt (by norm_num)
    linarith
  · have hbg : backgroundConc.CH3O2 = 0.01 := rfl
    simp only [finalUpdate, hbg]
    apply lt_max_of_lt_right
    linarith

/-- Counterexample to C7 as stated: the identifier `toString` is not one of
the fifteen named reactions, yet the lookup `rates["toString"] || 0` finds
the truthy function inherited from `Object.prototype` and returns it, not
0. -/
theorem getRateConstant_toString_not_zero :
    "toString" ∉ ratesOwnKeys ∧
    getRateConstantJs "toString" 298 1000 0 ≠ RateLookup.value 0 := by
  refine ⟨by decide, ?_⟩
  have h : getRateConstantJs "toString" 298 1000 0 =
      RateLookup.inherited "toString" := by
    unfold getRateConstantJs
    rw [if_neg (by decide), if_pos (by decide)]
  rw [h]
  intro hEq
  exact RateLookup.noConfusion hEq

/-- C7 (amended): for every reaction identifier that is neither one of the
fifteen named reactions nor an `Object.prototype` member name, and for every
T, P, sza, the lookup `rates[reactionName] || 0` returns exactly 0 rather
than failing or signaling an error — and the numeric `getRateConstant`
agrees. For inherited member names such as `toString` the lookup instead
returns the truthy inherited function. -/
theorem getRateConstant_unknown_zero (r : String)
    (hr : r ∉ ratesOwnKeys) (hp : r ∉ objectPrototypeMembers) (T P sza : ℝ) :
    getRateConstantJs r T P sza = RateLookup.value 0 ∧
    getRateConstant r T P sza = 0 := by
  constructor
  · unfold getRateConstantJs
    rw [if_neg hr, if_neg hp]
  · unfold getRateConstant
    split <;> simp_all [ratesOwnKeys]

/-- Witness for C7 (amended) at a concrete unknown identifier. -/
theorem getRateConstant_unknown_zero_witness :
    ("HNO3_formation" ∉ ratesOwnKeys) ∧
    ("HNO3_formation" ∉ objectPrototypeMembers) ∧
    (getRateConstantJs "HNO3_formation" 298 1000 0 = RateLookup.value 0 ∧
      getRateConstant "HNO3_formation" 298 1000 0 = 0) :=
  ⟨by decide, by decide,
   getRateConstant_unknown_zero "HNO3_formation" (by decide) (by decide) 298 1000 0⟩

/-- C1: for every input concentration vector with every entry nonnegative,
and for every dt, T, P, sza and emission pair, `rk4Step` returns a vector in
which every one of the ten species entries is nonnegative. -/
theorem rk4Step_nonneg (c : Conc) (dt T P sza : ℝ) (e : Emissions)
    (hc : 0 ≤ c.CH4 ∧ 0 ≤ c.CO ∧ 0 ≤ c.CO2 ∧ 0 ≤ c.OH ∧ 0 ≤ c.HO2 ∧
      0 ≤ c.O3 ∧ 0 ≤ c.NO ∧ 0 ≤ c.NO2 ∧ 0 ≤ c.CH3O2 ∧ 0 ≤ c.CH2O) :
    0 ≤ (rk4Step c dt T P sza e).CH4 ∧ 0 ≤ (rk4Step c dt T P sza e).CO ∧
    0 ≤ (rk4Step c dt T P sza e).CO2 ∧ 0 ≤ (rk4Step c dt T P sza e).OH ∧
    0 ≤ (rk4Step c dt T P sza e).HO2 ∧ 0 ≤ (rk4Step c dt T P sza e).O3 ∧
    0 ≤ (rk4Step c dt T P sza e).NO ∧ 0 ≤ (rk4Step c dt T P sza e).NO2 ∧
    0 ≤ (rk4Step c dt T P sza e).CH3O2 ∧ 0 ≤ (rk4Step c dt T P sza e).CH2O := by
  rw [rk4Step_unfold]
  simp only [finalUpdate]
  exact ⟨le_max_left _ _, le_max_left _ _, le_max_left _ _, le_max_left _ _,
    le_max_left _ _, le_max_left _ _, le_max_left _ _, le_max_left _ _,
    le_max_left _ _, le_max_left _ _⟩

/-- Witness for C1 at the background preset. -/
theorem rk4Step_nonneg_witness :
    (0 ≤ backgroundConc.CH4 ∧ 0 ≤ backgroundConc.CO ∧ 0 ≤ backgroundConc.CO2 ∧
      0 ≤ backgroundConc.OH ∧ 0 ≤ backgroundConc.HO2 ∧ 0 ≤ backgroundConc.O3 ∧
      0 ≤ backgroundConc.NO ∧ 0 ≤ backgroundConc.NO2 ∧
      0 ≤ backgroundConc.CH3O2 ∧ 0 ≤ backgroundConc.CH2O) ∧
    (0 ≤ (rk4Step backgroundConc 60 298 1000 0 ⟨10, 5⟩).CH4 ∧
      0 ≤ (rk4Step backgroundConc 60 298 1000 0 ⟨10, 5⟩).CO ∧
      0 ≤ (rk4Step backgroundConc 60 298 1000 0 ⟨10, 5⟩).CO2 ∧
      0 ≤ (rk4Step backgroundConc 60 298 1000 0 ⟨10, 5⟩).OH ∧
      0 ≤ (rk4Step backgroundConc 60 298 1000 0 ⟨10, 5⟩).HO2 ∧
      0 ≤ (rk4Step backgroundConc 60 298 1000 0 ⟨10, 5⟩).O3 ∧
      0 ≤ (rk4Step backgroundConc 60 298 1000 0 ⟨10, 5⟩).NO ∧
      0 ≤ (rk4Step backgroundConc 60 298 1000 0 ⟨10, 5⟩).NO2 ∧
      0 ≤ (rk4Step backgroundConc 60 298 1000 0 ⟨10, 5⟩).CH3O2 ∧
      0 ≤ (rk4Step backgroundConc 60 298 1000 0 ⟨10, 5⟩).CH2O) :=
  ⟨by norm_num [backgroundConc],
   rk4Step_nonneg backgroundConc 60 298 1000 0 ⟨10, 5⟩ (by norm_num [backgroundConc])⟩

/-- C9: after `resetSimulation`, from any prior state, the simulation is
stopped, simulated time is 0, solar zenith angle is 0, the time-series buffer
is empty, and every species concentration equals its background preset
value. -/
theorem resetSimulation_spec (s : SimState) :
    (resetSimulation s).isRunning = false ∧ (resetSimulation s).time = 0 ∧
    (resetSimulation s).solarZenithAngle = 0 ∧
    (resetSimulation s).tsTimes = [] ∧ (resetSimulation s).tsConcs = [] ∧
    (resetSimulation s).concentrations.CH4 = 1800 ∧
    (resetSimulation s).concentrations.CO = 100 ∧
    (resetSimulation s).concentrations.CO2 = 400000 ∧
    (resetSimulation s).concentrations.OH = 0.1 ∧
    (resetSimulation s).concentrations.HO2 = 10 ∧
    (resetSimulation s).concentrations.O3 = 40 ∧
    (resetSimulation s).concentrations.NO = 0.5 ∧
    (resetSimulation s).concentrations.NO2 = 0.5 ∧
    (resetSimulation s).concentrations.CH3O2 = 0.01 ∧
    (resetSimulation s).concentrations.CH2O = 1 :=
  ⟨rfl, rfl, rfl, rfl, rfl, rfl, rfl, rfl, rfl, rfl, rfl, rfl, rfl, rfl, rfl⟩

/-- C8: `stepSimulation` appends a sample exactly when the buffer is empty
or the new simulated time minus the last recorded sample time is at least
`dt * 10`; consequently, starting from any state whose buffer satisfies the
gap invariant, any number of steps preserves it: two consecutive recorded
samples are never closer than `dt * 10` simulated seconds. -/
theorem stepSimulation_sampling (dt : ℝ) (s : SimState)
    (hs : sampleGapOK dt s.tsTimes) :
    ((stepSimulation dt s).tsTimes = s.tsTimes ++ [s.time + dt] ↔
      (s.tsTimes.length = 0 ∨
        dt * 10 ≤ (s.time + dt) - s.tsTimes.getLastD 0)) ∧
    ∀ n : ℕ, sampleGapOK dt ((stepSimulation dt)^[n] s).tsTimes := by
  constructor
  · rw [stepSimulation_tsTimes]
    split_ifs with h
    · exact ⟨fun _ => h, fun _ => rfl⟩
    · refine ⟨fun hEq => ?_, fun hC => absurd hC h⟩
      exfalso
      have hlen := congrArg List.length hEq
      simp at hlen
  · intro n
    induction n generalizing s with
    | zero => simpa using hs
    | succ m ih =>
      rw [Function.iterate_succ_apply]
      exact ih _ (stepSimulation_gap dt s hs)

/-- Witness for C8 from a fresh state with an empty buffer. -/
theorem stepSimulation_sampling_witness :
    sampleGapOK 60 ([] : List ℝ) ∧
    (((stepSimulation 60 ⟨backgroundConc, 0, 298, 1000, 0, true, true,
        ⟨10, 5⟩, [], []⟩).tsTimes = [] ++ [0 + 60] ↔
      (([] : List ℝ).length = 0 ∨
        (60 : ℝ) * 10 ≤ (0 + 60) - ([] : List ℝ).getLastD 0)) ∧
    ∀ n : ℕ, sampleGapOK 60 ((stepSimulation 60)^[n]
      ⟨backgroundConc, 0, 298, 1000, 0, true, true, ⟨10, 5⟩, [], []⟩).tsTimes) :=
  ⟨by simp [sampleGapOK],
   stepSimulation_sampling 60 ⟨backgroundConc, 0, 298, 1000, 0, true, true,
     ⟨10, 5⟩, [], []⟩ (by simp [sampleGapOK])⟩

/-- C5: for every concentration vector and every T, P, sza, the five
carbon-species derivatives returned by `calculateRates` sum exactly to zero:
the RHS conserves total carbon over the full set of carbon-bearing
species. -/
theorem calculateRates_carbon_sum_zero (c : Conc) (T P sza : ℝ) :
    (calculateRates c T P sza).CH4 + (calculateRates c T P sza).CH3O2 +
    (calculateRates c T P sza).CH2O + (calculateRates c T P sza).CO +
    (calculateRates c T P sza).CO2 = 0 :=
  carbon5_rates c T P sza

end AtmosSim
